import Mathlib

/-!
Verification development for the ReplyX browser-extension automation core.

The repository has three source files: `content_script.js` (the optimized
content script, followed in the same file by two revisions of
`background.js`), `popup.js`, and an unnamed file holding the settings
popup HTML together with the original (non-optimized) content script.

This file gives a shallow embedding of the automation core:

* a JavaScript `Map` is modelled as an insertion-ordered association list
  (`JSMap`), with `mapSet` / `mapLookup` / `mapDelete` matching
  `Map.set` / `Map.get` / `Map.delete`, and `cacheSetEvict` matching the
  set-then-evict-oldest maintenance used for `tweetCache` (capacity 50,
  `getTweetTextFast`) and `apiCache` (capacity 100, `processApiRequest`);
* the optimized content script's globals are collected in `ReplyX.CS`,
  with its functions (`likePostFast`, `commentOnPostFast`,
  `engageWithTweetFast`, `processTweetsQuickly`, `processActionQueue`
  as `drainLoop`, `runAutomation` as `runAutomationFast`,
  `handleGroqResponse`, `handleCommentError`, `startAutomationFast`,
  `stopAutomation`, `toggleAutomation`, `startBackgroundMode`) as pure
  state transformers; DOM reads are passed in as parameters (`Tweet`,
  `ComposerPage`, viewport height, clock readings) and DOM writes are
  recorded in event-count fields (`likeClicks`, `submitClicks`,
  `escapes`, `closeClicks`, `insertedTexts`, `generationRequests`);
* the original content script (in the unnamed source file) is embedded
  the same way under `ReplyX.Orig`.
-/

namespace ReplyX

/-- Insertion-ordered association list modelling a JavaScript `Map`:
iteration (and hence `keys().next().value`) visits entries in insertion
order, and `set` on an existing key keeps its position. -/
abbrev JSMap : Type := List (String × String)

/-- `Map.get`: the value stored at `k`, if any. -/
def mapLookup : JSMap → String → Option String
  | [], _ => none
  | p :: rest, k => if p.1 = k then some p.2 else mapLookup rest k

/-- `Map.set`: update the entry at `k` in place if present (keeping the
insertion position), otherwise append a new entry at the end. -/
def mapSet : JSMap → String → String → JSMap
  | [], k, v => [(k, v)]
  | p :: rest, k, v => if p.1 = k then (k, v) :: rest else p :: mapSet rest k v

/-- `Map.delete`: remove the entry at `k`.  Keys of a `Map` are unique,
so removing the first entry with that key is the removal. -/
def mapDelete : JSMap → String → JSMap
  | [], _ => []
  | p :: rest, k => if p.1 = k then rest else p :: mapDelete rest k

/-- `keys().next().value`: the oldest-inserted key. -/
def mapFirstKey : JSMap → Option String
  | [] => none
  | p :: _ => some p.1

/-- The cache maintenance pattern shared by `getTweetTextFast`
(`tweetCache.set(...); if (tweetCache.size > 50) delete firstKey`) and
`processApiRequest` (`apiCache.set(...); if (apiCache.size > 100) delete
firstKey`): set the entry, then if the size exceeds the capacity delete
the oldest-inserted key. -/
def cacheSetEvict (cap : Nat) (m : JSMap) (k v : String) : JSMap :=
  let m1 := mapSet m k v
  if m1.length > cap then
    match mapFirstKey m1 with
    | some fk => mapDelete m1 fk
    | none => m1
  else m1

/-- The `tweetCache` maintenance in `getTweetTextFast` (capacity 50). -/
def tweetCacheSet (m : JSMap) (k v : String) : JSMap := cacheSetEvict 50 m k v

/-- The `apiCache` maintenance in `processApiRequest` (capacity 100). -/
def apiCacheSet (m : JSMap) (k v : String) : JSMap := cacheSetEvict 100 m k v

/-- One rendered tweet `article` element as the content script reads it:
its (assigned) `dataset.tweetId`, its bounding rectangle, and the
presence/state of the affordances the script queries.
`likeClickSucceeds` records whether the `unlike` marker appears when the
script re-checks after clicking the like button. -/
structure Tweet where
  id : String
  height : Nat
  width : Nat
  top : Int
  bottom : Int
  hasLikeButton : Bool
  alreadyLiked : Bool
  likeClickSucceeds : Bool
  hasTextElem : Bool
  text : String
  hasReplyButton : Bool
deriving DecidableEq

/-- An entry of `actionQueue`: `{ tweet, tweetId, timestamp: Date.now() }`
(the tweet reference is recovered through its id). -/
structure QueuedAction where
  tweetId : String
  timestamp : Nat
deriving DecidableEq

/-- What `handleGroqResponse` / `handleCommentError` read from the page:
whether `document.activeElement` is an editable composer, whether
`findReplyButton` finds a submit button, and how many close affordances
a dismissal pass would click. -/
structure ComposerPage where
  activeEditable : Bool
  submitPresent : Bool
  closeButtons : Nat
deriving DecidableEq

/-- The optimized content script's module-level state
(`content_script.js` lines 1-22), plus event-count fields recording the
script's writes to the page and its outgoing messages: `likeClicks`
counts `likeButton.click()` calls, `submitClicks` counts submit-button
clicks in `handleGroqResponse`, `escapes` counts dispatched Escape key
events, `closeClicks` counts clicked close affordances,
`insertedTexts` records texts inserted into the composer, and
`generationRequests` records `groqApiRequest` messages sent. -/
structure CS where
  settingsLoaded : Bool
  enableLiking : Bool
  enableCommenting : Bool
  automationEnabled : Bool
  isRunning : Bool
  processedTweets : List String
  totalTweets : Nat
  processedLikes : Nat
  processedComments : Nat
  lastActionTime : Nat
  currentTweetForComment : Option String
  tweetCache : JSMap
  actionQueue : List QueuedAction
  isProcessingQueue : Bool
  automationInterval : Option Nat
  pageVisibilityInterval : Option Nat
  counterDisplayed : Bool
  likeClicks : Nat
  submitClicks : Nat
  escapes : Nat
  closeClicks : Nat
  insertedTexts : List String
  generationRequests : List String
deriving DecidableEq

/-- `Set.add`: JavaScript set insertion (no effect if already present). -/
def setAdd (l : List String) (x : String) : List String :=
  if l.contains x then l else l ++ [x]

/-- `likePostFast(tweet)`: no like button means failure; an `unlike`
marker means the tweet is already liked, counted as success with a
counter increment and no click; otherwise click and re-check the
`unlike` marker, succeeding only if it now appears. -/
def likePostFast (s : CS) (t : Tweet) : CS × Bool :=
  if !t.hasLikeButton then (s, false)
  else if t.alreadyLiked then
    ({ s with processedLikes := s.processedLikes + 1 }, true)
  else
    let s1 := { s with likeClicks := s.likeClicks + 1 }
    if t.likeClickSucceeds then
      ({ s1 with processedLikes := s1.processedLikes + 1 }, true)
    else (s1, false)

/-- `getTweetTextFast(tweet)`: return the cached text when present;
otherwise read the `tweetText` element (empty string when absent) and,
when an element was found, cache it with the capacity-50 maintenance. -/
def getTweetTextFast (s : CS) (t : Tweet) : CS × String :=
  match mapLookup s.tweetCache t.id with
  | some txt => (s, txt)
  | none =>
    if t.hasTextElem then
      ({ s with tweetCache := tweetCacheSet s.tweetCache t.id t.text }, t.text)
    else (s, "")

/-- `commentOnPostFast(tweet)`: extract the text (failure when empty),
find the reply button (failure when absent), otherwise open the
composer, remember the tweet in `currentTweetForComment`, and send a
`groqApiRequest` message carrying the text. -/
def commentOnPostFast (s : CS) (t : Tweet) : CS × Bool :=
  let r := getTweetTextFast s t
  let s1 := r.1
  let txt := r.2
  if txt = "" then (s1, false)
  else if !t.hasReplyButton then (s1, false)
  else
    ({ s1 with currentTweetForComment := some t.id
             , generationRequests := s1.generationRequests ++ [txt] }, true)

/-- `engageWithTweetFast(tweet, tweetId)`: like when liking is enabled,
comment when commenting is enabled and the probabilistic gate
(`shouldCommentFast`, passed in as `gate`) fires; when either action
was taken, add the id to `processedTweets`, update `lastActionTime`
(to `now`, the `Date.now()` reading), and increment `totalTweets`. -/
def engageWithTweetFast (s : CS) (t : Tweet) (gate : Bool) (now : Nat) :
    CS × Bool :=
  let likeRes := if s.enableLiking then likePostFast s t else (s, false)
  let s1 := likeRes.1
  let commentRes :=
    if s1.enableCommenting && gate then commentOnPostFast s1 t else (s1, false)
  let s2 := commentRes.1
  if likeRes.2 || commentRes.2 then
    ({ s2 with processedTweets := setAdd s2.processedTweets t.id
             , lastActionTime := now
             , totalTweets := s2.totalTweets + 1 }, true)
  else (s2, false)

/-- The visibility test in `processTweetsQuickly`:
`rect.height > 0 && rect.top < window.innerHeight && rect.bottom > 0`. -/
def visibleQuick (viewH : Int) (t : Tweet) : Bool :=
  t.height > 0 && t.top < viewH && t.bottom > 0

/-- `processTweetsQuickly()`: bail out unless settings are loaded,
automation is enabled, and no cycle is running; otherwise walk the
rendered tweets and push the first one that is unprocessed and visible
onto `actionQueue` with the current `Date.now()` as its timestamp
(one per call; the drain itself, triggered here when
`isProcessingQueue` is false, runs asynchronously and is modelled by
`drainLoop`). -/
def processTweetsQuickly (s : CS) (page : List Tweet) (viewH : Int)
    (now : Nat) : CS :=
  if !s.settingsLoaded || !s.automationEnabled || s.isRunning then s
  else
    match page.find? (fun t =>
        !s.processedTweets.contains t.id && visibleQuick viewH t) with
    | some t =>
      { s with actionQueue := s.actionQueue ++ [⟨t.id, now⟩] }
    | none => s

/-- One observable step of the drain loop in `processActionQueue`:
either the popped action is dispatched to the engagement engine, or the
loop pauses for the pacing delay. -/
inductive DrainEvent where
  | engage (id : String)
  | pace (ms : Nat)
deriving DecidableEq

/-- The `while` loop of `processActionQueue()`: pop actions in FIFO
order; `times` supplies the `Date.now()` reading at each pop.  An action
older than 30000 ms is skipped (`continue`: no engine dispatch, no
pacing delay); otherwise it is dispatched to `engageWithTweetFast` and
followed by the pacing delay (2000 ms in fast mode, 5000 ms otherwise)
before the next pop. -/
def drainLoop (fastMode : Bool) : List Nat → List QueuedAction → List DrainEvent
  | _, [] => []
  | [], _ :: _ => []
  | now :: ts, a :: rest =>
    if now - a.timestamp > 30000 then drainLoop fastMode ts rest
    else
      DrainEvent.engage a.tweetId ::
        DrainEvent.pace (if fastMode then 2000 else 5000) ::
          drainLoop fastMode ts rest

/-- The visibility test of the engagement loop in `runAutomation`:
`rect.height > 10 && rect.top >= 0 && rect.top < window.innerHeight`
(the outer `rect.height > 10` check is subsumed by the inner one). -/
def visibleForCycle (viewH : Int) (t : Tweet) : Bool :=
  t.height > 10 && t.top ≥ 0 && t.top < viewH

/-- The `for` loop of `runAutomation`: find the first tweet that is not
yet in `processedTweets` and passes `visibleForCycle`, engage it, and
stop (`break`), reporting `processedInThisCycle = true` regardless of
whether the engagement took an action; report `false` when no candidate
was found. -/
def engageLoopFast (viewH : Int) (now : Nat) (gate : Bool) (s : CS) :
    List Tweet → CS × Bool
  | [] => (s, false)
  | t :: rest =>
    if s.processedTweets.contains t.id then
      engageLoopFast viewH now gate s rest
    else if visibleForCycle viewH t then
      ((engageWithTweetFast s t gate now).1, true)
    else engageLoopFast viewH now gate s rest

/-- The control skeleton of `runAutomation()` (lines 403-466 of the
optimized content script): return unchanged unless settings are loaded,
no cycle is running, and automation is enabled; otherwise set
`isRunning = true`, run the `try` block — `body` returns the state at
the end of the block, or the partial state at the point of a thrown
exception together with the thrown flag (the `catch` only logs) — and
reset `isRunning = false` in the `finally`. -/
def runAutomationGuarded (body : CS → CS × Bool) (s : CS) : CS :=
  if !s.settingsLoaded || s.isRunning || !s.automationEnabled then s
  else
    let s1 := { s with isRunning := true }
    let s2 := (body s1).1
    { s2 with isRunning := false }

/-- `runAutomation()` with its actual `try` block: set `totalTweets` to
the number of rendered tweets, update the counter display, engage the
first unprocessed visible tweet if any, and otherwise scroll down by
85% of the viewport (the scroll touches no modelled state). -/
def runAutomationFast (s : CS) (page : List Tweet) (viewH : Int)
    (gate : Bool) (now : Nat) : CS :=
  runAutomationGuarded (fun s1 =>
    let s2 := { s1 with totalTweets := page.length }
    ((engageLoopFast viewH now gate s2 page).1, false)) s

/-- `handleCommentError()` of the optimized script: dispatch an Escape
key event. -/
def handleCommentError (s : CS) : CS :=
  { s with escapes := s.escapes + 1 }

/-- `handleGroqResponse(reply)` of the optimized script: when the active
element is an editable composer, insert the reply text; then look for a
submit button via `findReplyButton` and, only when one is found, click
it, increment `processedComments`, and scroll.  A missing submit button
falls through silently; `handleCommentError` runs only from the `catch`
on a thrown exception. -/
def handleGroqResponse (s : CS) (p : ComposerPage) (reply : String) : CS :=
  let s1 :=
    if p.activeEditable then
      { s with insertedTexts := s.insertedTexts ++ [reply] }
    else s
  if p.submitPresent then
    { s1 with submitClicks := s1.submitClicks + 1
            , processedComments := s1.processedComments + 1 }
  else s1

/-- `startBackgroundMode()`: start the keep-alive heartbeat interval
(called once, from `initialize`); `h` is the fresh interval handle. -/
def startBackgroundMode (s : CS) (h : Nat) : CS :=
  { s with pageVisibilityInterval := some h }

/-- `startAutomationFast()`: no-op when the polling interval already
exists, otherwise start it; the heartbeat interval is not touched. -/
def startAutomationFast (s : CS) (h : Nat) : CS :=
  if s.automationInterval.isSome then s
  else { s with automationInterval := some h }

/-- `stopAutomation()`: clear the polling interval, clear the keep-alive
heartbeat interval, and force `isRunning = false`. -/
def stopAutomation (s : CS) : CS :=
  { s with automationInterval := none
         , pageVisibilityInterval := none
         , isRunning := false }

/-- `toggleAutomation(enabled)`: record the flag, then either create the
counter display and start the polling interval, or stop automation and
remove the display. -/
def toggleAutomation (s : CS) (enabled : Bool) (h : Nat) : CS :=
  let s1 := { s with automationEnabled := enabled }
  if enabled then
    startAutomationFast { s1 with counterDisplayed := true } h
  else
    { stopAutomation s1 with counterDisplayed := false }

/-- The automation-control operations reachable after initialization
(`toggleAutomation` from a settings/toggle message, and the
`startAutomationFast` / `stopAutomation` it calls); `startBackgroundMode`
is not among them, since only `initialize` calls it. -/
inductive ControlOp where
  | toggle (enabled : Bool) (h : Nat)
  | start (h : Nat)
  | stop
deriving DecidableEq

/-- Apply one control operation. -/
def applyControlOp (s : CS) : ControlOp → CS
  | ControlOp.toggle enabled h => toggleAutomation s enabled h
  | ControlOp.start h => startAutomationFast s h
  | ControlOp.stop => stopAutomation s

/-- Apply a sequence of control operations in order. -/
def applyControlOps (s : CS) (ops : List ControlOp) : CS :=
  ops.foldl applyControlOp s

namespace Orig

/-- The original content script's module-level state (the unnamed
source file, lines 163-175), with the same event-count instrumentation
as `ReplyX.CS`; `reloadScheduled` records a scheduled
`window.location.reload()`. -/
structure CS where
  settingsLoaded : Bool
  enableLiking : Bool
  enableCommenting : Bool
  automationEnabled : Bool
  isRunning : Bool
  processedTweets : List String
  totalTweets : Nat
  processedLikes : Nat
  processedComments : Nat
  lastActionTime : Nat
  currentTweetForComment : Option String
  automationInterval : Option Nat
  likeClicks : Nat
  submitClicks : Nat
  escapes : Nat
  closeClicks : Nat
  insertedTexts : List String
  generationRequests : List String
  reloadScheduled : Bool
deriving DecidableEq

/-- `likePost(tweet)` of the original script: missing like button means
failure (the retry re-queries the same tweet); an `unlike` marker means
already liked, counted as success with a counter increment and no
click; otherwise move the mouse, click, and verify that the `unlike`
marker appeared. -/
def likePost (s : CS) (t : Tweet) : CS × Bool :=
  if !t.hasLikeButton then (s, false)
  else if t.alreadyLiked then
    ({ s with processedLikes := s.processedLikes + 1 }, true)
  else
    let s1 := { s with likeClicks := s.likeClicks + 1 }
    if t.likeClickSucceeds then
      ({ s1 with processedLikes := s1.processedLikes + 1 }, true)
    else (s1, false)

/-- `getTweetText(tweet)` of the original script: try the prioritized
selector list, first non-empty text wins (collapsed here into the
presence flag and extracted text of the modelled tweet). -/
def getTweetText (t : Tweet) : String :=
  if t.hasTextElem then t.text else ""

/-- `commentOnPost(tweet)`: failure when no text can be extracted or
the reply button is absent; otherwise open the composer, remember the
tweet, and send a `groqApiRequest` message whose prompt is a template
wrapped around the extracted text (recorded here by the text itself). -/
def commentOnPost (s : CS) (t : Tweet) : CS × Bool :=
  let txt := getTweetText t
  if txt = "" then (s, false)
  else if !t.hasReplyButton then (s, false)
  else
    ({ s with currentTweetForComment := some t.id
            , generationRequests := s.generationRequests ++ [txt] }, true)

/-- `engageWithTweet(tweet)`: scroll the tweet into view, fail when it
is still not fully inside the viewport
(`rect.top < 0 || rect.bottom > window.innerHeight`), like when liking
is enabled, comment when commenting is enabled and the `shouldComment`
gate fires, and update `lastActionTimestamp` when an action was taken. -/
def engageWithTweet (s : CS) (t : Tweet) (gate : Bool) (viewH : Int)
    (now : Nat) : CS × Bool :=
  if t.top < 0 || t.bottom > viewH then (s, false)
  else
    let likeRes := if s.enableLiking then likePost s t else (s, false)
    let s1 := likeRes.1
    let commentRes :=
      if s1.enableCommenting && gate then commentOnPost s1 t else (s1, false)
    let s2 := commentRes.1
    if likeRes.2 || commentRes.2 then
      ({ s2 with lastActionTime := now }, true)
    else (s2, false)

/-- The `for` loop of the original `runAutomation`: walk the visible
tweets, skip processed ids, skip tweets not settled into the viewport
after scrolling (`rect.top >= 0 && rect.bottom <= innerHeight` must
hold), engage the first remaining candidate, and on a successful
engagement add its id to `processedTweets` and stop; a failed
engagement leaves its state changes in place and the loop moves on. -/
def engageLoop (viewH : Int) (now : Nat) (gate : Bool) (s : CS) :
    List Tweet → CS × Bool
  | [] => (s, false)
  | t :: rest =>
    if s.processedTweets.contains t.id then engageLoop viewH now gate s rest
    else if 0 ≤ t.top && t.bottom ≤ viewH then
      let res := engageWithTweet s t gate viewH now
      if res.2 then
        ({ res.1 with
            processedTweets := setAdd res.1.processedTweets t.id }, true)
      else engageLoop viewH now gate res.1 rest
    else engageLoop viewH now gate s rest

/-- `smoothScroll()`: scroll half a viewport down and return `true`
when the scroll position could still advance, `false` when the page is
already at the document's end
(`currentScroll < scrollHeight - viewportHeight` fails). -/
def smoothScroll (currentScroll scrollHeight viewportHeight : Nat) : Bool :=
  currentScroll < scrollHeight - viewportHeight

/-- `runAutomation()` of the original script (lines 803-875): guard on
settings, the `running` flag, and the enabled flag; set
`isRunning = true`; scan the visible tweets (`height > 0 && width > 0`)
and set `totalTweets` to their count; run the engagement loop; when it
processed nothing, scroll — and when the scroll cannot advance
(`smoothScroll` returns `false`), zero all counters, clear
`processedTweets`, and schedule a page reload; finally reset
`isRunning = false`. -/
def runAutomation (s : CS) (page : List Tweet) (viewH : Int) (gate : Bool)
    (now : Nat) (currentScroll scrollHeight viewportHeight : Nat) : CS :=
  if !s.settingsLoaded || s.isRunning || !s.automationEnabled then s
  else
    let s1 := { s with isRunning := true }
    let visible := page.filter (fun t => t.height > 0 && t.width > 0)
    let s2 := { s1 with totalTweets := visible.length }
    let loopRes := engageLoop viewH now gate s2 visible
    let s3 := loopRes.1
    let s4 :=
      if loopRes.2 then s3
      else if smoothScroll currentScroll scrollHeight viewportHeight then s3
      else
        { s3 with totalTweets := 0
                , processedLikes := 0
                , processedComments := 0
                , processedTweets := []
                , reloadScheduled := true }
    { s4 with isRunning := false }

/-- `handleCommentError()` of the original script: click every known
close affordance, then dispatch an Escape key event. -/
def handleCommentError (s : CS) (p : ComposerPage) : CS :=
  { s with closeClicks := s.closeClicks + p.closeButtons
         , escapes := s.escapes + 1 }

/-- `handleGroqResponse(reply)` of the original script: insert the
reply into the auto-focused composer (with a simulated-typing fallback),
then look for the submit button; when it cannot be found, invoke
`handleCommentError` and return; otherwise click it and increment
`processedComments`. -/
def handleGroqResponse (s : CS) (p : ComposerPage) (reply : String) : CS :=
  let s1 := { s with insertedTexts := s.insertedTexts ++ [reply] }
  if !p.submitPresent then handleCommentError s1 p
  else
    { s1 with submitClicks := s1.submitClicks + 1
            , processedComments := s1.processedComments + 1 }

end Orig

/-- A baseline state of the optimized script for concrete evaluations:
settings loaded, liking enabled, commenting disabled, automation
enabled, idle, everything else empty or zero. -/
def cs0 : CS :=
  { settingsLoaded := true
  , enableLiking := true
  , enableCommenting := false
  , automationEnabled := true
  , isRunning := false
  , processedTweets := []
  , totalTweets := 0
  , processedLikes := 0
  , processedComments := 0
  , lastActionTime := 0
  , currentTweetForComment := none
  , tweetCache := []
  , actionQueue := []
  , isProcessingQueue := false
  , automationInterval := none
  , pageVisibilityInterval := none
  , counterDisplayed := false
  , likeClicks := 0
  , submitClicks := 0
  , escapes := 0
  , closeClicks := 0
  , insertedTexts := []
  , generationRequests := [] }

/-- A baseline state of the original script, matching `cs0`. -/
def ocs0 : Orig.CS :=
  { settingsLoaded := true
  , enableLiking := true
  , enableCommenting := false
  , automationEnabled := true
  , isRunning := false
  , processedTweets := []
  , totalTweets := 0
  , processedLikes := 0
  , processedComments := 0
  , lastActionTime := 0
  , currentTweetForComment := none
  , automationInterval := none
  , likeClicks := 0
  , submitClicks := 0
  , escapes := 0
  , closeClicks := 0
  , insertedTexts := []
  , generationRequests := []
  , reloadScheduled := false }

/-- A rendered tweet already carrying the `unlike` marker. -/
def tweetLiked : Tweet :=
  { id := "t1"
  , height := 100
  , width := 200
  , top := 0
  , bottom := 100
  , hasLikeButton := true
  , alreadyLiked := true
  , likeClickSucceeds := false
  , hasTextElem := true
  , text := "hello"
  , hasReplyButton := true }

/-- A rendered tweet that is not yet liked; clicking its like button
makes the `unlike` marker appear. -/
def tweetFresh : Tweet :=
  { tweetLiked with alreadyLiked := false, likeClickSucceeds := true }

/-- A page state where the composer is focused but `findReplyButton`
finds no submit button and one close affordance exists. -/
def pageNoSubmit : ComposerPage :=
  { activeEditable := true, submitPresent := false, closeButtons := 1 }

/-- A page state where the composer is focused and the submit button is
present. -/
def pageSubmit : ComposerPage :=
  { activeEditable := true, submitPresent := true, closeButtons := 0 }

/-!
## Theorems

General lemmas about the embedded definitions first, then one theorem
per claim (with its witness or counterexample).
-/

lemma mapSet_of_lookup_none (m : JSMap) (k v : String)
    (h : mapLookup m k = none) : mapSet m k v = m ++ [(k, v)] := by
  induction m with
  | nil => rfl
  | cons p rest ih =>
    by_cases hp : p.1 = k
    · simp [mapLookup, hp] at h
    · simp [mapLookup, hp] at h
      simp [mapSet, hp, ih h]

lemma mapSet_length_of_lookup_some (m : JSMap) (k v w : String)
    (h : mapLookup m k = some w) : (mapSet m k v).length = m.length := by
  induction m with
  | nil => simp [mapLookup] at h
  | cons p rest ih =>
    by_cases hp : p.1 = k
    · simp [mapSet, hp]
    · simp [mapLookup, hp] at h
      simp [mapSet, hp, ih h]

lemma mapDelete_head (p : String × String) (rest : JSMap) :
    mapDelete (p :: rest) p.1 = rest := by
  simp [mapDelete]

/-- C1, counterexample: in a reachable state where the drain is busy
with a previously popped action while an action for tweet `t1` is still
sitting in `actionQueue`, a scan that sees `t1` (visible, not yet in
`processedTweets` — ids enter that set only after a successful
engagement) pushes a second entry for `t1`: the queue then holds two
queued actions with the same feed-item id, so enqueuing an action whose
item id already has an entry does not leave the queue unchanged. -/
theorem C1_counterexample :
    (processTweetsQuickly
        { cs0 with actionQueue := [⟨"t1", 0⟩], isProcessingQueue := true }
        [tweetLiked] 800 50).actionQueue.map QueuedAction.tweetId
      = ["t1", "t1"] := by
  rfl

/-- C1, amended: `processTweetsQuickly` performs no dedup against the
queue.  Whenever its guard passes and some rendered tweet is both
unprocessed and visible, the first such tweet is appended to
`actionQueue` unconditionally — regardless of whether the queue already
holds an entry with the same id.  The only duplicate protection is the
`processedTweets` filter, which admits any id not yet successfully
engaged. -/
theorem C1_scan_appends_unconditionally (s : CS) (page : List Tweet)
    (viewH : Int) (now : Nat) (t : Tweet)
    (h1 : s.settingsLoaded = true) (h2 : s.automationEnabled = true)
    (h3 : s.isRunning = false)
    (hfind : page.find? (fun t =>
        !s.processedTweets.contains t.id && visibleQuick viewH t) = some t) :
    processTweetsQuickly s page viewH now
      = { s with actionQueue := s.actionQueue ++ [⟨t.id, now⟩] } := by
  unfold processTweetsQuickly
  rw [h1, h2, h3, hfind]
  rfl

/-- C1, witness: the amended theorem applied to the baseline state and
a single visible unprocessed tweet. -/
theorem C1_scan_appends_witness :
    processTweetsQuickly cs0 [tweetLiked] 800 7
      = { cs0 with actionQueue := cs0.actionQueue ++ [⟨tweetLiked.id, 7⟩] } :=
  C1_scan_appends_unconditionally cs0 [tweetLiked] 800 7 tweetLiked
    rfl rfl rfl (by decide)

/-- C3: in the drain loop of `processActionQueue`, an action whose age
at its pop time exceeds 30000 ms is discarded — the step contributes no
engine dispatch and no pacing delay, the loop going straight on to the
rest of the queue — while an action of age at most 30000 ms is
dispatched to the engagement engine and followed by the pacing delay
(2000 ms in fast mode, 5000 ms otherwise) before the next pop. -/
theorem C3_staleness_eviction (fastMode : Bool) (a : QueuedAction)
    (rest : List QueuedAction) (ts : List Nat) (t : Nat) :
    (t - a.timestamp > 30000 →
        drainLoop fastMode (t :: ts) (a :: rest) = drainLoop fastMode ts rest) ∧
    (t - a.timestamp ≤ 30000 →
        drainLoop fastMode (t :: ts) (a :: rest)
          = DrainEvent.engage a.tweetId
              :: DrainEvent.pace (if fastMode then 2000 else 5000)
              :: drainLoop fastMode ts rest) := by
  constructor
  · intro h
    simp [drainLoop, h]
  · intro h
    have hn : ¬ t - a.timestamp > 30000 := by omega
    simp [drainLoop, hn]

/-- C3, witness: an action enqueued at 0 and reached at 30001 ms is
discarded; reached at 29999 ms it is dispatched and followed by the
fast-mode pacing delay. -/
theorem C3_staleness_witness :
    drainLoop true [30001] [⟨"a", 0⟩] = [] ∧
    drainLoop true [29999] [⟨"a", 0⟩]
      = [DrainEvent.engage "a", DrainEvent.pace 2000] := by
  constructor
  · exact ((C3_staleness_eviction true ⟨"a", 0⟩ [] [] 30001).1 (by decide)).trans rfl
  · exact ((C3_staleness_eviction true ⟨"a", 0⟩ [] [] 29999).2 (by decide)).trans rfl

/-- C4, counterexample: calling `likePostFast` twice on the same
already-liked tweet increments `processedLikes` both times — the
counter stands at 2 after the second call even though the first call
already returned success, so repeated like calls on an already-liked
item do double-increment the like counter. -/
theorem C4_counterexample :
    (likePostFast cs0 tweetLiked).2 = true ∧
    (likePostFast cs0 tweetLiked).1.processedLikes = 1 ∧
    (likePostFast (likePostFast cs0 tweetLiked).1 tweetLiked).1.processedLikes
      = 2 :=
  ⟨rfl, rfl, rfl⟩

/-- C4, amended: on a tweet bearing the already-liked (`unlike`)
marker, `likePostFast` returns success without dispatching any click —
but it increments the like counter on every such call, not only the
first: the result state is exactly the input state with
`processedLikes` one higher. -/
theorem C4_like_already_liked (s : CS) (t : Tweet)
    (h1 : t.hasLikeButton = true) (h2 : t.alreadyLiked = true) :
    likePostFast s t = ({ s with processedLikes := s.processedLikes + 1 }, true) := by
  simp [likePostFast, h1, h2]

/-- C4, witness: the amended theorem applied to the baseline state and
an already-liked tweet. -/
theorem C4_like_already_liked_witness :
    likePostFast cs0 tweetLiked
      = ({ cs0 with processedLikes := cs0.processedLikes + 1 }, true) :=
  C4_like_already_liked cs0 tweetLiked rfl rfl

/-- C2: `runAutomation` is mutually exclusive and always resets its
flag.  A call made while `isRunning` is set returns the state unchanged
(shown both for the control skeleton with an arbitrary `try`-block body
and for the concrete cycle).  When the guard passes, the cycle runs the
body — which may stop at a thrown exception, returning its partial
state — and the result is exactly that state with `isRunning` reset to
`false`: the `catch` only logs, and the `finally`-style reset runs on
every exit path. -/
theorem C2_cycle_mutex_and_flag_reset (body : CS → CS × Bool) (s : CS)
    (page : List Tweet) (viewH : Int) (gate : Bool) (now : Nat) :
    (s.isRunning = true →
        runAutomationGuarded body s = s ∧
        runAutomationFast s page viewH gate now = s) ∧
    (s.settingsLoaded = true → s.isRunning = false → s.automationEnabled = true →
        runAutomationGuarded body s
          = { (body { s with isRunning := true }).1 with isRunning := false } ∧
        (runAutomationGuarded body s).isRunning = false ∧
        (runAutomationFast s page viewH gate now).isRunning = false) := by
  constructor
  · intro h
    constructor
    · simp [runAutomationGuarded, h]
    · simp [runAutomationFast, runAutomationGuarded, h]
  · intro h1 h2 h3
    refine ⟨?_, ?_, ?_⟩
    · simp [runAutomationGuarded, h1, h2, h3]
    · simp [runAutomationGuarded, h1, h2, h3]
    · simp [runAutomationFast, runAutomationGuarded, h1, h2, h3]

/-- C2, witness: the theorem applied to the baseline state with a body
that mutates `totalTweets` and then throws, and to a state whose
`isRunning` flag is set. -/
theorem C2_cycle_mutex_witness :
    (runAutomationGuarded
        (fun s1 => ({ s1 with totalTweets := 42 }, true)) cs0).isRunning
      = false ∧
    runAutomationGuarded (fun s1 => ({ s1 with totalTweets := 42 }, true))
        { cs0 with isRunning := true }
      = { cs0 with isRunning := true } :=
  ⟨((C2_cycle_mutex_and_flag_reset
        (fun s1 => ({ s1 with totalTweets := 42 }, true)) cs0
        [] 800 false 0).2 rfl rfl rfl).2.1,
   ((C2_cycle_mutex_and_flag_reset
        (fun s1 => ({ s1 with totalTweets := 42 }, true))
        { cs0 with isRunning := true } [] 800 false 0).1 rfl).1⟩

lemma applyControlOp_heartbeat_none (s : CS) (op : ControlOp)
    (h : s.pageVisibilityInterval = none) :
    (applyControlOp s op).pageVisibilityInterval = none := by
  cases op with
  | toggle enabled hh =>
    cases enabled with
    | true =>
      simp [applyControlOp, toggleAutomation, startAutomationFast]
      split <;> simp [h]
    | false =>
      simp [applyControlOp, toggleAutomation, stopAutomation]
  | start hh =>
    simp [applyControlOp, startAutomationFast]
    split <;> simp [h]
  | stop =>
    simp [applyControlOp, stopAutomation]

/-- C10: `stopAutomation` clears the keep-alive heartbeat interval
(`pageVisibilityInterval`), and no automation-control operation
performed afterwards — toggling in either direction, starting, or
stopping again — ever restarts it (only `initialize` calls
`startBackgroundMode`): after the first disable the heartbeat handle
stays `none` for the rest of the session.  In particular
`startAutomationFast` never touches the heartbeat interval. -/
theorem C10_heartbeat_never_resumes (s : CS) (ops : List ControlOp) :
    (stopAutomation s).pageVisibilityInterval = none ∧
    (applyControlOps (stopAutomation s) ops).pageVisibilityInterval = none ∧
    (∀ h, (startAutomationFast s h).pageVisibilityInterval
        = s.pageVisibilityInterval) := by
  refine ⟨rfl, ?_, ?_⟩
  · have key : ∀ (l : List ControlOp) (st : CS),
        st.pageVisibilityInterval = none →
        (applyControlOps st l).pageVisibilityInterval = none := by
      intro l
      induction l with
      | nil => intro st h; exact h
      | cons op rest ih =>
        intro st h
        exact ih _ (applyControlOp_heartbeat_none st op h)
    exact key ops _ rfl
  · intro h
    unfold startAutomationFast
    split <;> rfl

/-- C6, counterexample: in the optimized script, when
`handleGroqResponse` cannot find the submit affordance it does not
invoke the error-recovery path at all — no Escape is dispatched and no
close affordance is clicked; the handler falls through silently. -/
theorem C6_counterexample :
    (handleGroqResponse cs0 pageNoSubmit "nice").escapes = 0 ∧
    (handleGroqResponse cs0 pageNoSubmit "nice").closeClicks = 0 :=
  ⟨rfl, rfl⟩

/-- C6, amended: when the submit affordance is missing, the optimized
`handleGroqResponse` performs only the text insertion and then falls
through silently — no recovery invocation, no comment-counter
increment, no re-queue (the result state differs from the input at most
in `insertedTexts`); its recovery routine (`handleCommentError`,
dispatching Escape) runs only from the `catch` on a thrown exception.
The original script's `handleGroqResponse` is the one that, on a
missing submit affordance, invokes `handleCommentError` — clicking the
close affordances and dispatching Escape — likewise without
incrementing the comment counter or re-queuing. -/
theorem C6_submit_missing_behavior (s : CS) (so : Orig.CS)
    (p : ComposerPage) (reply : String) (h : p.submitPresent = false) :
    handleGroqResponse s p reply
      = (if p.activeEditable
           then { s with insertedTexts := s.insertedTexts ++ [reply] }
           else s) ∧
    Orig.handleGroqResponse so p reply
      = Orig.handleCommentError
          { so with insertedTexts := so.insertedTexts ++ [reply] } p ∧
    (Orig.handleGroqResponse so p reply).processedComments
      = so.processedComments := by
  refine ⟨?_, ?_, ?_⟩
  · simp [handleGroqResponse, h]
  · simp [Orig.handleGroqResponse, h]
  · simp [Orig.handleGroqResponse, Orig.handleCommentError, h]

/-- C6, witness: the amended theorem applied to the baseline states and
a composer page without a submit button. -/
theorem C6_submit_missing_witness :
    handleGroqResponse cs0 pageNoSubmit "x"
      = { cs0 with insertedTexts := ["x"] } ∧
    Orig.handleGroqResponse ocs0 pageNoSubmit "x"
      = Orig.handleCommentError { ocs0 with insertedTexts := ["x"] } pageNoSubmit := by
  have h := C6_submit_missing_behavior cs0 ocs0 pageNoSubmit "x" rfl
  exact ⟨h.1.trans (by rfl), h.2.1⟩

/-- C7, counterexample: a generation reply arriving after automation
has been disabled (`automationEnabled = false`, no cycle running) is
not discarded: `handleGroqResponse` still inserts the text, clicks the
submit button, and increments the comment counter — it performs no
enabled/running check before acting. -/
theorem C7_counterexample :
    (handleGroqResponse { cs0 with automationEnabled := false }
        pageSubmit "stale").processedComments = 1 ∧
    (handleGroqResponse { cs0 with automationEnabled := false }
        pageSubmit "stale").insertedTexts = ["stale"] ∧
    (handleGroqResponse { cs0 with automationEnabled := false }
        pageSubmit "stale").submitClicks = 1 :=
  ⟨rfl, rfl, rfl⟩

/-- C7, amended: `handleGroqResponse` reads neither `automationEnabled`
nor `isRunning` — its behaviour is identical for every value of the two
flags, so a stale callback after disable acts exactly as a live one:
whenever a composer is focused it inserts the text, and whenever a
submit affordance is present it clicks it and increments the comment
counter. -/
theorem C7_handler_ignores_enabled_state (s : CS) (p : ComposerPage)
    (reply : String) (b r : Bool) :
    handleGroqResponse { s with automationEnabled := b, isRunning := r } p reply
      = { handleGroqResponse s p reply with
            automationEnabled := b, isRunning := r } := by
  rcases p with ⟨ae, sp, cb⟩
  cases ae <;> cases sp <;> rfl

/-- C5, counterexample: the optimized script's `runAutomation` has no
end-of-feed detection and never resets the session.  A cycle that
processes no item (here: an empty page, so nothing new appears whatever
the scroll position — including at the document's end) leaves the
processed-id set and the like counter untouched and schedules no
reload; only the original script resets. -/
theorem C5_counterexample :
    (runAutomationFast { cs0 with processedTweets := ["old"], processedLikes := 4 }
        [] 800 false 0).processedTweets = ["old"] ∧
    (runAutomationFast { cs0 with processedTweets := ["old"], processedLikes := 4 }
        [] 800 false 0).processedLikes = 4 :=
  ⟨rfl, rfl⟩

/-- C5, amended: the feed-exhaustion session reset is implemented only
in the original script's `runAutomation`: there, when the engagement
loop processes no tweet and the scroll position can no longer advance
(`smoothScroll` reports the document's end), the session is reset — all
three counters become zero, the processed-id set becomes empty, so any
previously-processed id passes the `processedTweets` filter again — and
a page reload is scheduled.  The optimized scheduler's no-item cycle
only scrolls. -/
theorem C5_feed_exhaustion_resets_session (s : Orig.CS) (page : List Tweet)
    (viewH : Int) (gate : Bool) (now : Nat) (cs sh vh : Nat)
    (h1 : s.settingsLoaded = true) (h2 : s.isRunning = false)
    (h3 : s.automationEnabled = true)
    (hNone : (Orig.engageLoop viewH now gate
        { s with isRunning := true
               , totalTweets :=
                   (page.filter (fun t => t.height > 0 && t.width > 0)).length }
        (page.filter (fun t => t.height > 0 && t.width > 0))).2 = false)
    (hEnd : Orig.smoothScroll cs sh vh = false) :
    (Orig.runAutomation s page viewH gate now cs sh vh).totalTweets = 0 ∧
    (Orig.runAutomation s page viewH gate now cs sh vh).processedLikes = 0 ∧
    (Orig.runAutomation s page viewH gate now cs sh vh).processedComments = 0 ∧
    (Orig.runAutomation s page viewH gate now cs sh vh).processedTweets = [] ∧
    (Orig.runAutomation s page viewH gate now cs sh vh).reloadScheduled = true ∧
    ∀ id, (Orig.runAutomation s page viewH gate now cs sh vh).processedTweets.contains id
        = false := by
  have hg : ¬ ((!s.settingsLoaded || s.isRunning || !s.automationEnabled) = true) := by
    rw [h1, h2, h3]
    simp
  unfold Orig.runAutomation
  rw [if_neg hg]
  simp only [hNone, hEnd]
  simp

/-- C5, witness: the theorem applied to the baseline state (with one
previously processed id), an empty page, and a scroll position already
at the document's end. -/
theorem C5_feed_exhaustion_witness :
    (Orig.runAutomation { ocs0 with processedTweets := ["old"], totalTweets := 3 }
        [] 800 false 0 10 5 8).processedTweets = [] ∧
    (Orig.runAutomation { ocs0 with processedTweets := ["old"], totalTweets := 3 }
        [] 800 false 0 10 5 8).totalTweets = 0 ∧
    (Orig.runAutomation { ocs0 with processedTweets := ["old"], totalTweets := 3 }
        [] 800 false 0 10 5 8).reloadScheduled = true := by
  have h := C5_feed_exhaustion_resets_session
      { ocs0 with processedTweets := ["old"], totalTweets := 3 }
      [] 800 false 0 10 5 8 rfl rfl rfl rfl rfl
  exact ⟨h.2.2.2.1, h.1, h.2.2.2.2.1⟩

lemma likePostFast_totalTweets (s : CS) (t : Tweet) :
    (likePostFast s t).1.totalTweets = s.totalTweets := by
  unfold likePostFast
  split
  · rfl
  · split
    · rfl
    · split <;> rfl

lemma getTweetTextFast_totalTweets (s : CS) (t : Tweet) :
    (getTweetTextFast s t).1.totalTweets = s.totalTweets := by
  unfold getTweetTextFast
  cases h : mapLookup s.tweetCache t.id with
  | some txt => rfl
  | none =>
    simp only []
    split <;> rfl

lemma commentOnPostFast_totalTweets (s : CS) (t : Tweet) :
    (commentOnPostFast s t).1.totalTweets = s.totalTweets := by
  have h := getTweetTextFast_totalTweets s t
  simp only [commentOnPostFast]
  split
  · exact h
  · split
    · exact h
    · exact h

lemma engageWithTweetFast_parts (s : CS) (t : Tweet) (gate : Bool)
    (now : Nat) :
    ((engageWithTweetFast s t gate now).2 = true →
        (engageWithTweetFast s t gate now).1.totalTweets = s.totalTweets + 1) ∧
    ((engageWithTweetFast s t gate now).2 = false →
        (engageWithTweetFast s t gate now).1.totalTweets = s.totalTweets) := by
  have hl : (if s.enableLiking = true then likePostFast s t
      else (s, false)).1.totalTweets = s.totalTweets := by
    split
    · exact likePostFast_totalTweets s t
    · rfl
  simp only [engageWithTweetFast]
  generalize hA : (if s.enableLiking = true then likePostFast s t
      else (s, false)) = a
  rw [hA] at hl
  have hc : (if (a.1.enableCommenting && gate) = true then commentOnPostFast a.1 t
      else (a.1, false)).1.totalTweets = a.1.totalTweets := by
    split
    · exact commentOnPostFast_totalTweets a.1 t
    · rfl
  generalize hB : (if (a.1.enableCommenting && gate) = true
      then commentOnPostFast a.1 t else (a.1, false)) = b
  rw [hB] at hc
  rcases a with ⟨a1, a2⟩
  rcases b with ⟨b1, b2⟩
  cases a2 <;> cases b2 <;> simp_all

lemma engageLoopFast_totalTweets (viewH : Int) (now : Nat) (gate : Bool)
    (s : CS) (page : List Tweet) :
    (engageLoopFast viewH now gate s page).1.totalTweets = s.totalTweets ∨
    (engageLoopFast viewH now gate s page).1.totalTweets = s.totalTweets + 1 := by
  induction page with
  | nil => exact Or.inl rfl
  | cons t rest ih =>
    unfold engageLoopFast
    split
    · exact ih
    · split
      · by_cases h2 : (engageWithTweetFast s t gate now).2 = true
        · exact Or.inr ((engageWithTweetFast_parts s t gate now).1 h2)
        · rw [Bool.not_eq_true] at h2
          exact Or.inl ((engageWithTweetFast_parts s t gate now).2 h2)
      · exact ih

/-- C9, counterexample: the seen counter is not the last full scan's
visible-item count.  A cycle over a page with exactly one rendered
tweet sets `totalTweets` to 1 at scan time, but the successful
engagement inside the same cycle increments it again: after the cycle
the counter reads 2 while the scan saw 1 item. -/
theorem C9_counterexample :
    (runAutomationFast cs0 [tweetFresh] 800 false 5).totalTweets = 2 ∧
    ([tweetFresh] : List Tweet).length = 1 :=
  ⟨rfl, rfl⟩

/-- C9, amended: `runAutomation` re-bases `totalTweets` to the scan's
item count at the start of every cycle (so the counter is not
cumulative across scans), but each successful engagement additionally
increments it by one (`totalTweets++` in `engageWithTweetFast`): after
a cycle the counter equals the scan count, or the scan count plus one
when the cycle's engagement took an action. -/
theorem C9_seen_counter_rebased (s : CS) (page : List Tweet) (viewH : Int)
    (gate : Bool) (now : Nat) (h1 : s.settingsLoaded = true)
    (h2 : s.isRunning = false) (h3 : s.automationEnabled = true) :
    ((runAutomationFast s page viewH gate now).totalTweets = page.length ∨
     (runAutomationFast s page viewH gate now).totalTweets = page.length + 1) ∧
    (∀ t g, (engageWithTweetFast s t g now).2 = true →
        (engageWithTweetFast s t g now).1.totalTweets = s.totalTweets + 1) := by
  constructor
  · have hg : ¬ ((!s.settingsLoaded || s.isRunning || !s.automationEnabled) = true) := by
      rw [h1, h2, h3]
      simp
    unfold runAutomationFast runAutomationGuarded
    rw [if_neg hg]
    have h := engageLoopFast_totalTweets viewH now gate
        { s with isRunning := true, totalTweets := page.length } page
    simpa using h
  · intro t g hg
    exact (engageWithTweetFast_parts s t g now).1 hg

/-- C9, witness: the amended theorem applied to the baseline state and
a one-tweet page (where the engagement succeeds, so the counter lands
on the scan count plus one). -/
theorem C9_seen_counter_witness :
    (runAutomationFast cs0 [tweetFresh] 800 false 5).totalTweets
        = ([tweetFresh] : List Tweet).length ∨
    (runAutomationFast cs0 [tweetFresh] 800 false 5).totalTweets
        = ([tweetFresh] : List Tweet).length + 1 :=
  (C9_seen_counter_rebased cs0 [tweetFresh] 800 false 5 rfl rfl rfl).1

lemma cacheSetEvict_of_lookup_some (cap : Nat) (m : JSMap) (k v w : String)
    (h : mapLookup m k = some w) (hlen : m.length ≤ cap) :
    cacheSetEvict cap m k v = mapSet m k v := by
  unfold cacheSetEvict
  have hl := mapSet_length_of_lookup_some m k v w h
  rw [if_neg (by omega)]

lemma cacheSetEvict_of_small (cap : Nat) (m : JSMap) (k v : String)
    (hlen : m.length < cap) :
    cacheSetEvict cap m k v = mapSet m k v := by
  unfold cacheSetEvict
  cases h : mapLookup m k with
  | some w =>
    have hl := mapSet_length_of_lookup_some m k v w h
    rw [if_neg (by omega)]
  | none =>
    have he := mapSet_of_lookup_none m k v h
    have hl : (mapSet m k v).length = m.length + 1 := by
      rw [he]
      simp
    rw [if_neg (by omega)]

lemma cacheSetEvict_of_full (cap : Nat) (m : JSMap) (k v : String)
    (h : mapLookup m k = none) (hlen : m.length = cap) (hcap : 1 ≤ cap) :
    cacheSetEvict cap m k v = m.tail ++ [(k, v)] := by
  unfold cacheSetEvict
  have he := mapSet_of_lookup_none m k v h
  have hl : (mapSet m k v).length = m.length + 1 := by
    rw [he]
    simp
  rw [if_pos (by omega)]
  cases m with
  | nil =>
    exfalso
    simp at hlen
    omega
  | cons p rest =>
    have he2 : mapSet (p :: rest) k v = p :: (rest ++ [(k, v)]) := by
      rw [he]
      rfl
    rw [he2]
    simp only [mapFirstKey]
    rw [mapDelete_head]
    rfl

/-- C8: the reply cache's set-then-evict maintenance keeps the map
within its capacity after any operation; inserting a distinct entry
into a full cache evicts exactly the single oldest-inserted entry (the
head of the insertion order) and retains all the other entries plus the
new one; any other insertion — an update of an existing key, or an
insertion while below capacity — evicts nothing, being a plain
`mapSet`.  The source instantiates this at capacity 50 (`tweetCache` in
`getTweetTextFast`) and capacity 100 (`apiCache` in
`processApiRequest`). -/
theorem C8_cache_bound_and_eviction (cap : Nat) (m : JSMap) (k v : String)
    (hcap : 1 ≤ cap) (hlen : m.length ≤ cap) :
    (cacheSetEvict cap m k v).length ≤ cap ∧
    (mapLookup m k = none → m.length = cap →
        cacheSetEvict cap m k v = m.tail ++ [(k, v)]) ∧
    (∀ w, mapLookup m k = some w →
        cacheSetEvict cap m k v = mapSet m k v) ∧
    (m.length < cap → cacheSetEvict cap m k v = mapSet m k v) := by
    refine ⟨?_, ?_, ?_, ?_⟩
    · cases h : mapLookup m k with
      | some w =>
        rw [cacheSetEvict_of_lookup_some cap m k v w h hlen]
        have := mapSet_length_of_lookup_some m k v w h
        omega
      | none =>
        rcases Nat.lt_or_ge m.length cap with hlt | hge
        · rw [cacheSetEvict_of_small cap m k v hlt]
          have he := mapSet_of_lookup_none m k v h
          rw [he]
          simp
          omega
        · have heq : m.length = cap := by omega
          rw [cacheSetEvict_of_full cap m k v h heq hcap]
          have : m.tail.length = m.length - 1 := by simp
          simp
          omega
    · intro h hfull
      exact cacheSetEvict_of_full cap m k v h hfull hcap
    · intro w h
      exact cacheSetEvict_of_lookup_some cap m k v w h hlen
    · intro hlt
      exact cacheSetEvict_of_small cap m k v hlt

/-- C8, witness: the theorem applied to a full capacity-2 cache and a
distinct third key — the oldest entry is evicted, the other entry and
the new one are retained, and the bound holds. -/
theorem C8_cache_witness :
    cacheSetEvict 2 [("a", "1"), ("b", "2")] "c" "3" = [("b", "2"), ("c", "3")] ∧
    (cacheSetEvict 2 [("a", "1"), ("b", "2")] "c" "3").length ≤ 2 :=
  ⟨(C8_cache_bound_and_eviction 2 [("a", "1"), ("b", "2")] "c" "3"
      (by decide) (by decide)).2.1 (by decide) (by decide),
   (C8_cache_bound_and_eviction 2 [("a", "1"), ("b", "2")] "c" "3"
      (by decide) (by decide)).1⟩

end ReplyX
